import Mathlib

/-!
Shallow embedding of the request-building and validation layer of
pylibrenms (the single class Librenms in client.py): Python values, ordered
dictionaries, the four HTTP verb primitives, and the endpoint methods under
study.  Network effects are modelled by the Request value a method returns;
a method that raises before reaching a verb primitive returns an error and
constructs no Request, which is the embedding of "no network call is made".
-/

namespace PyLibreNMS

/-- A Python value as it appears in parameter mappings and JSON bodies:
None, a string, an integer, a boolean, or a list of strings. -/
inductive Value where
  | vnone : Value
  | str : String → Value
  | int : Int → Value
  | bool : Bool → Value
  | list : List String → Value
deriving DecidableEq, Repr

/-- Python truthiness, as used by the test `latitude if latitude else "None"`. -/
def Value.truthy : Value → Bool
  | .vnone => false
  | .str s => !(s == "")
  | .int n => !(n == 0)
  | .bool b => b
  | .list xs => !xs.isEmpty

/-- A Python dict with string keys, modelled as an insertion-ordered
association list whose keys are kept unique by `dictSet`. -/
abbrev Dict := List (String × Value)

/-- Python `d[k]` and `k in d.keys()` lookup: the first binding of `k`. -/
def lookup : Dict → String → Option Value
  | [], _ => none
  | (k', v) :: rest, k => if k' = k then some v else lookup rest k

/-- Python `d[k] = v`: replace the binding in place if the key exists,
otherwise append it at the end (dicts preserve insertion order). -/
def dictSet : Dict → String → Value → Dict
  | [], k, v => [(k, v)]
  | (k', v') :: rest, k, v =>
      if k' = k then (k, v) :: rest else (k', v') :: dictSet rest k v

/-- Python `d.keys()`. -/
def keys (d : Dict) : List String := d.map Prod.fst

/-- A Python exception: either `raise Exception(msg)` from the client code,
or a built-in TypeError signalled by the interpreter on a bad call
signature. -/
inductive PyErr where
  | exc : String → PyErr
  | typeError : String → PyErr
deriving DecidableEq, Repr

/-- An HTTP method of the `requests` transport collaborator. -/
inductive Verb where
  | get | post | patch | delete
deriving DecidableEq, Repr

/-- A request handed to the transport collaborator: method, full URL,
headers, and the query-parameter mapping (GET) or JSON body (others). -/
structure Request where
  verb : Verb
  url : String
  headers : List (String × String)
  payload : Dict
  verify : Bool
deriving DecidableEq, Repr

/-- The client state built by the constructor of the Librenms class. -/
structure Librenms where
  url : String
  apiKey : String
  verify : Bool
deriving DecidableEq, Repr

/-- Python `s.endswith(suffix)`, as a computation on the character list. -/
def strEndsWith (s suffix : String) : Bool := List.isSuffixOf suffix.data s.data

/-- Embeds `Librenms.__init__(base_url, api_key, verify_ssl)`: appends `/`
to the base URL when missing, then appends the fixed `api/v0/` segment. -/
def Librenms.init (base_url api_key : String) (verify_ssl : Bool) : Librenms :=
  { url := (if strEndsWith base_url "/" then base_url else base_url ++ "/") ++ "api/v0/"
    apiKey := api_key
    verify := verify_ssl }

/-- Embeds the loop body of `_get`, namely
`if isinstance(value, list): params[key] = ",".join(value)`. -/
def normalizeValue : Value → Value
  | .list xs => .str (String.intercalate "," xs)
  | v => v

/-- Embeds the in-place normalization pass of `_get` over a non-None
params dict. -/
def normalizeParams (params : Dict) : Dict :=
  params.map fun kv => (kv.1, normalizeValue kv.2)

/-- Result of `_get`: the request issued, together with the state of the
params dict object owned by the caller after the call.  The source mutates
params in place (`params[key] = ",".join(value)`) and hands that same
object to `requests.get`, so `callerParams` (when a dict was passed) is the
normalized mapping, not the original; `none` records that the caller passed
`params=None`, in which case `_get` builds a fresh empty dict. -/
structure GetCall where
  request : Request
  callerParams : Option Dict
deriving DecidableEq, Repr

/-- Embeds `Librenms._get(route, params=None)`. -/
def Librenms._get (c : Librenms) (route : String) (params : Option Dict) : GetCall :=
  { request :=
      { verb := .get
        url := c.url ++ route
        headers := [("X-Auth-Token", c.apiKey)]
        payload := (params.map normalizeParams).getD []
        verify := c.verify }
    callerParams := params.map normalizeParams }

/-- Embeds `Librenms._post(route, data=None)`. -/
def Librenms._post (c : Librenms) (route : String) (data : Option Dict) : Request :=
  { verb := .post
    url := c.url ++ route
    headers := [("X-Auth-Token", c.apiKey)]
    payload := data.getD []
    verify := c.verify }

/-- Embeds `Librenms._patch(route, data=None)`. -/
def Librenms._patch (c : Librenms) (route : String) (data : Option Dict) : Request :=
  { verb := .patch
    url := c.url ++ route
    headers := [("X-Auth-Token", c.apiKey)]
    payload := data.getD []
    verify := c.verify }

/-- Embeds `Librenms._delete(route, data=None)`. -/
def Librenms._delete (c : Librenms) (route : String) (data : Option Dict) : Request :=
  { verb := .delete
    url := c.url ++ route
    headers := [("X-Auth-Token", c.apiKey)]
    payload := data.getD []
    verify := c.verify }

/-- Embeds `Librenms.search_ports(field, search_string, columns=None)`.
The branch for `field == "all"` in the source is
`return self._get("ports/search/" + str(search_string), columns=columns)`;
`_get` has no parameter named columns, so the interpreter raises TypeError
at the call site, before any request is issued. -/
def Librenms.search_ports (c : Librenms) (field search_string : String)
    (columns : Value) : Except PyErr GetCall :=
  if field ∉ ["ifAlias", "ifDescr", "ifName", "all"] then
    .error (.exc "Error occurred!")
  else if field = "all" then
    .error (.typeError "_get got an unexpected keyword argument columns")
  else
    .ok (c._get ("ports/search/" ++ field ++ "/" ++ search_string)
          (some [("columns", columns)]))

/-- Embeds the required_params dict of `add_device`; `none` models a key
that is absent, that is, an unknown device type. -/
def required_params : String → Option (List String)
  | "icmp" => some []
  | "snmpv1" => some ["community"]
  | "snmpv2c" => some ["community"]
  | "snmpv3" =>
      some ["authlevel", "authname", "authpass", "authalgo", "cryptopass", "cryptoalgo"]
  | _ => none

/-- Embeds the optional_params dict of `add_device`; it is only consulted
after the device type has been validated against required_params. -/
def optional_params : String → List String
  | "icmp" => ["os", "sys_name", "hardware", "force_add", "location", "poller_group", "display"]
  | "snmpv1" => ["port", "transport", "port_association_mode", "location", "force_add", "display"]
  | "snmpv2c" => ["port", "transport", "port_association_mode", "location", "force_add", "display"]
  | "snmpv3" => ["port", "transport", "port_association_mode", "location", "force_add", "display"]
  | _ => []

/-- Embeds the loop of `add_device` over the required parameter list:
raise on the first required parameter missing from kwargs, otherwise copy
each one into data. -/
def fillRequired (device_type : String) (kwargs : Dict) :
    Dict → List String → Except PyErr Dict
  | data, [] => .ok data
  | data, p :: rest =>
      match lookup kwargs p with
      | none => .error (.exc s!"Missing parameter {p} for device type {device_type}.")
      | some v => fillRequired device_type kwargs (dictSet data p v) rest

/-- Embeds the loop of `add_device` over the optional parameter list: copy
a parameter into data when present in kwargs, ignore it otherwise. -/
def fillOptional (kwargs : Dict) : Dict → List String → Dict
  | data, [] => data
  | data, p :: rest =>
      match lookup kwargs p with
      | none => fillOptional kwargs data rest
      | some v => fillOptional kwargs (dictSet data p v) rest

/-- Embeds `Librenms.add_device(hostname, device_type="snmpv2c", **kwargs)`. -/
def Librenms.add_device (c : Librenms) (hostname device_type : String)
    (kwargs : Dict) : Except PyErr Request :=
  match required_params device_type with
  | none => .error (.exc s!"Unknown device type {device_type}.")
  | some reqList =>
      match fillRequired device_type kwargs [("hostname", .str hostname)] reqList with
      | .error e => .error e
      | .ok d =>
          let d := fillOptional kwargs d (optional_params device_type)
          let d :=
            if device_type = "icmp" then dictSet d "snmp_disable" (.str "true")
            else if device_type = "snmpv1" then dictSet d "snmpver" (.str "v1")
            else if device_type = "snmpv2c" then dictSet d "snmpver" (.str "v2c")
            else dictSet d "snmpver" (.str "v3")
          .ok (c._post "devices" (some d))

/-- Embeds `Librenms.add_devicegroup(group_name, group_type,
description=None, rules=None, devices=None)`; `Value.vnone` models an
argument left at its None default. -/
def Librenms.add_devicegroup (c : Librenms) (group_name group_type : String)
    (description rules devices : Value) : Except PyErr Request :=
  let data : Dict :=
    [("name", .str group_name), ("description", description), ("type", .str group_type)]
  if group_type = "static" then
    if devices = .vnone ∨ rules ≠ .vnone then
      .error (.exc "Devices must be set, rules cannot be set for STATIC group type.")
    else
      .ok (c._post "devicegroups" (some (dictSet data "devices" devices)))
  else if group_type = "dynamic" then
    if rules = .vnone ∨ devices ≠ .vnone then
      .error (.exc "rules must be set, Devices cannot be set for DYNAMCI group type.")
    else
      .ok (c._post "devicegroups" (some (dictSet data "rules" rules)))
  else
    .error (.exc s!"Unknown group type {group_type}")

/-- Embeds `Librenms.add_location(location_name, latitude=None,
longitude=None, fixed_coordinates=None)`: the lat and lng entries use
Python truthiness (`latitude if latitude else "None"`), so a falsy
coordinate becomes the literal string None, while fixed_coordinates is
passed through unchanged. -/
def Librenms.add_location (c : Librenms) (location_name : String)
    (latitude longitude fixed_coordinates : Value) : Request :=
  c._post "locations" (some
    [("location", .str location_name),
     ("lat", if latitude.truthy then latitude else .str "None"),
     ("lng", if longitude.truthy then longitude else .str "None"),
     ("fixed_coordinates", fixed_coordinates)])

/-- The five filter device types of `list_devices`. -/
def filterTypes : List String := ["all", "active", "ignored", "up", "down"]

/-- The eleven searchable device types of `list_devices`. -/
def searchTypes : List String :=
  ["os", "mac", "ipv4", "ipv6", "location", "location_id", "hostname",
   "sysName", "display", "device_id", "type"]

/-- Embeds `Librenms.list_devices(device_type, query=None)`. -/
def Librenms.list_devices (c : Librenms) (device_type : String)
    (query : Option String) : Except PyErr GetCall :=
  if device_type ∈ filterTypes ∧ query ≠ none then
    .error (.exc s!"Device type {device_type} cannot have a query string.")
  else if device_type ∈ searchTypes ∧ query = none then
    .error (.exc s!"Device type {device_type} needs a query string.")
  else
    .ok (c._get "devices" (some
      [("type", .str device_type),
       ("query", match query with | none => .vnone | some q => .str q)]))

/-- A concrete client used by witnesses and counterexamples. -/
def tc : Librenms := Librenms.init "http://librenms.example" "tok" true

/-- States that the string `name` occurs verbatim inside the string `msg`;
used to express that an error message names the violated rule. -/
def mentions (msg name : String) : Prop := List.IsInfix name.data msg.data

instance (msg name : String) : Decidable (mentions msg name) :=
  List.decidableInfix name.data msg.data

theorem mentions_refl (p : String) : mentions p p := ⟨[], [], by simp⟩

theorem mentions_append_l (s t p : String) (h : mentions s p) : mentions (s ++ t) p := by
  obtain ⟨u, v, huv⟩ := h
  exact ⟨u, v ++ t.data, by rw [String.data_append, ← huv]; simp⟩

theorem mentions_append_r (s t p : String) (h : mentions t p) : mentions (s ++ t) p := by
  obtain ⟨u, v, huv⟩ := h
  exact ⟨s.data ++ u, v, by rw [String.data_append, ← huv]; simp⟩

theorem lookup_dictSet_self (d : Dict) (k : String) (v : Value) :
    lookup (dictSet d k v) k = some v := by
  induction d with
  | nil => simp [dictSet, lookup]
  | cons kv rest ih =>
      obtain ⟨k', v'⟩ := kv
      by_cases h : k' = k <;> simp [dictSet, lookup, h, ih]

theorem lookup_dictSet_ne (d : Dict) (k k' : String) (v : Value) (h : k' ≠ k) :
    lookup (dictSet d k' v) k = lookup d k := by
  induction d with
  | nil => simp [dictSet, lookup, h]
  | cons kv rest ih =>
      obtain ⟨k0, v0⟩ := kv
      by_cases h0 : k0 = k'
      · subst h0; simp [dictSet, lookup, h]
      · simp [dictSet, lookup, h0, ih]

theorem lookup_fillOptional_not_mem (kwargs : Dict) (names : List String) (d : Dict) (k : String)
    (h : k ∉ names) :
    lookup (fillOptional kwargs d names) k = lookup d k := by
  induction names generalizing d with
  | nil => rfl
  | cons p rest ih =>
      have hpk : p ≠ k := fun he => h (by simp [he])
      have hrest : k ∉ rest := fun he => h (by simp [he])
      cases hl : lookup kwargs p with
      | none => simp [fillOptional, hl, ih _ hrest]
      | some v => simp [fillOptional, hl, ih _ hrest, lookup_dictSet_ne _ _ _ _ hpk]

theorem lookup_normalizeParams (d : Dict) (k : String) :
    lookup (normalizeParams d) k = (lookup d k).map normalizeValue := by
  induction d with
  | nil => rfl
  | cons kv rest ih =>
      obtain ⟨k0, v0⟩ := kv
      by_cases h : k0 = k
      · simp [normalizeParams, lookup, h]
      · simp only [normalizeParams, List.map_cons, lookup, if_neg h]
        simpa [normalizeParams] using ih

theorem fillRequired_nil (dt : String) (kwargs data : Dict) :
    fillRequired dt kwargs data [] = .ok data := rfl

theorem fillRequired_cons_none (dt p : String) (kwargs data : Dict) (rest : List String)
    (h : lookup kwargs p = none) :
    fillRequired dt kwargs data (p :: rest)
      = .error (.exc s!"Missing parameter {p} for device type {dt}.") := by
  simp [fillRequired, h]

theorem fillRequired_cons_some (dt p : String) (kwargs data : Dict) (rest : List String) (v : Value)
    (h : lookup kwargs p = some v) :
    fillRequired dt kwargs data (p :: rest) = fillRequired dt kwargs (dictSet data p v) rest := by
  simp [fillRequired, h]

theorem fillRequired_error_mem (dt : String) (kwargs : Dict) (ps : List String) (data : Dict)
    (e : PyErr) (h : fillRequired dt kwargs data ps = .error e) :
    ∃ p ∈ ps, lookup kwargs p = none
      ∧ e = .exc s!"Missing parameter {p} for device type {dt}." := by
  induction ps generalizing data with
  | nil => simp [fillRequired] at h
  | cons p rest ih =>
      cases hl : lookup kwargs p with
      | none =>
          rw [fillRequired_cons_none _ _ _ _ _ hl] at h
          injection h with h'
          exact ⟨p, by simp, hl, h'.symm⟩
      | some v =>
          rw [fillRequired_cons_some _ _ _ _ _ _ hl] at h
          obtain ⟨p', hp', hl', he⟩ := ih _ h
          exact ⟨p', by simp [hp'], hl', he⟩

/-- C8: for every constructor input and every route, the full URL issued by
each of the four verb primitives is the base URL (with a trailing slash
appended exactly when missing) followed by `api/v0/` followed by the route,
and every request carries exactly the X-Auth-Token header holding the
credential given at construction. -/
theorem verb_primitives_url_and_auth_header (base key : String) (v : Bool) (route : String)
    (p d : Option Dict) :
    ((Librenms.init base key v)._get route p).request.url
        = (if strEndsWith base "/" then base else base ++ "/") ++ "api/v0/" ++ route
    ∧ ((Librenms.init base key v)._get route p).request.headers = [("X-Auth-Token", key)]
    ∧ ((Librenms.init base key v)._post route d).url
        = (if strEndsWith base "/" then base else base ++ "/") ++ "api/v0/" ++ route
    ∧ ((Librenms.init base key v)._post route d).headers = [("X-Auth-Token", key)]
    ∧ ((Librenms.init base key v)._patch route d).url
        = (if strEndsWith base "/" then base else base ++ "/") ++ "api/v0/" ++ route
    ∧ ((Librenms.init base key v)._patch route d).headers = [("X-Auth-Token", key)]
    ∧ ((Librenms.init base key v)._delete route d).url
        = (if strEndsWith base "/" then base else base ++ "/") ++ "api/v0/" ++ route
    ∧ ((Librenms.init base key v)._delete route d).headers = [("X-Auth-Token", key)] :=
  ⟨rfl, rfl, rfl, rfl, rfl, rfl, rfl, rfl⟩

/-- C4: in the parameter mapping handed to the transport by `_get`, every
list-valued entry is replaced by the single comma-joined string of its
elements, while non-list entries, including None-valued and absent ones,
pass through unchanged. -/
theorem get_list_params_comma_joined (c : Librenms) (route : String) (params : Dict) :
    (∀ k xs, lookup params k = some (.list xs) →
        lookup ((c._get route (some params)).request.payload) k
          = some (.str (String.intercalate "," xs)))
    ∧ (∀ k v, (∀ xs, v ≠ Value.list xs) → lookup params k = some v →
        lookup ((c._get route (some params)).request.payload) k = some v)
    ∧ (∀ k, lookup params k = none →
        lookup ((c._get route (some params)).request.payload) k = none) := by
  have hp : (c._get route (some params)).request.payload = normalizeParams params := rfl
  refine ⟨fun k xs h => ?_, fun k v hv h => ?_, fun k h => ?_⟩
  · rw [hp, lookup_normalizeParams, h]; rfl
  · rw [hp, lookup_normalizeParams, h]
    cases v
    case list xs => exact absurd rfl (hv xs)
    all_goals rfl
  · rw [hp, lookup_normalizeParams, h]; rfl

/-- Witness for C4 at a concrete mapping: columns becomes "a,b", a string
entry and a missing key are untouched. -/
theorem get_list_params_comma_joined_witness :
    lookup ((tc._get "ports" (some [("columns", .list ["a", "b"]), ("f", .str "s"),
        ("n", .vnone)])).request.payload) "columns" = some (.str "a,b")
    ∧ lookup ((tc._get "ports" (some [("columns", .list ["a", "b"]), ("f", .str "s"),
        ("n", .vnone)])).request.payload) "f" = some (.str "s")
    ∧ lookup ((tc._get "ports" (some [("columns", .list ["a", "b"]), ("f", .str "s"),
        ("n", .vnone)])).request.payload) "missing" = none :=
  ⟨(get_list_params_comma_joined tc "ports" _).1 "columns" ["a", "b"] rfl,
   (get_list_params_comma_joined tc "ports" _).2.1 "f" (.str "s") (fun _ h => nomatch h) rfl,
   (get_list_params_comma_joined tc "ports" _).2.2 "missing" rfl⟩

/-- C9: `_get` mutates the params dict object owned by the caller in place:
after a call with a mapping holding a list-valued entry, the mapping the
caller still holds is the very mapping handed to the transport, and it
carries the comma-joined string in place of the original list. -/
theorem get_mutates_caller_params (c : Librenms) (route : String) (params : Dict)
    (k : String) (xs : List String) (h : lookup params k = some (.list xs)) :
    (c._get route (some params)).callerParams
        = some ((c._get route (some params)).request.payload)
    ∧ lookup ((c._get route (some params)).request.payload) k
        = some (.str (String.intercalate "," xs)) := by
  refine ⟨rfl, ?_⟩
  have hp : (c._get route (some params)).request.payload = normalizeParams params := rfl
  rw [hp, lookup_normalizeParams, h]; rfl

/-- Witness for C9 at a concrete mapping with a list-valued columns entry. -/
theorem get_mutates_caller_params_witness :
    (tc._get "r" (some [("columns", .list ["a", "b"])])).callerParams
        = some ((tc._get "r" (some [("columns", .list ["a", "b"])])).request.payload)
    ∧ lookup ((tc._get "r" (some [("columns", .list ["a", "b"])])).request.payload) "columns"
        = some (.str "a,b") :=
  get_mutates_caller_params tc "r" [("columns", .list ["a", "b"])] "columns" ["a", "b"] rfl

/-- C2: for every search string, `search_ports` with field ifAlias issues a
GET whose route is `ports/search/ifAlias/` followed by the search string,
and with field bogus fails validation with no network call; but with field
all the source calls `_get` with the invalid keyword argument columns, so a
TypeError is raised and no GET to `ports/search/` plus the search string is
ever issued, contrary to the claim. -/
theorem search_ports_field_dispatch (c : Librenms) (s : String) (cols : Value) :
    c.search_ports "all" s cols
        = .error (.typeError "_get got an unexpected keyword argument columns")
    ∧ (∃ g, c.search_ports "ifAlias" s cols = .ok g ∧ g.request.verb = .get
        ∧ g.request.url = c.url ++ ("ports/search/ifAlias/" ++ s))
    ∧ c.search_ports "bogus" s cols = .error (.exc "Error occurred!") :=
  ⟨rfl, ⟨_, rfl, rfl, rfl⟩, rfl⟩

/-- C3 (amended): a device_type outside both fixed sets is not rejected:
`list_devices` raises no validation error and issues a GET to the devices
route with the type parameter bound to the unknown value. -/
theorem list_devices_unknown_type_passthrough (c : Librenms) (dt : String) (q : Option String)
    (h1 : dt ∉ filterTypes) (h2 : dt ∉ searchTypes) :
    ∃ g, c.list_devices dt q = .ok g ∧ g.request.verb = .get
      ∧ g.request.url = c.url ++ "devices"
      ∧ lookup g.request.payload "type" = some (.str dt) := by
  have hf : ¬ (dt ∈ filterTypes ∧ q ≠ none) := fun hc => h1 hc.1
  have hs : ¬ (dt ∈ searchTypes ∧ q = none) := fun hc => h2 hc.1
  unfold Librenms.list_devices
  rw [if_neg hf, if_neg hs]
  exact ⟨_, rfl, rfl, rfl, rfl⟩

/-- Witness for the amended C3 at a concrete unknown device type. -/
theorem list_devices_unknown_type_passthrough_witness :
    ∃ g, tc.list_devices "wat" (some "q") = .ok g ∧ g.request.verb = .get
      ∧ g.request.url = tc.url ++ "devices"
      ∧ lookup g.request.payload "type" = some (.str "wat") :=
  list_devices_unknown_type_passthrough tc "wat" (some "q") (by decide) (by decide)

/-- C3 counterexample: the value bogus lies outside both fixed sets, yet
`list_devices` succeeds and issues a GET request instead of failing with a
validation error. -/
theorem list_devices_unknown_type_counterexample :
    ("bogus" ∉ filterTypes) ∧ ("bogus" ∉ searchTypes)
    ∧ (tc.list_devices "bogus" none).isOk = true
    ∧ (tc.list_devices "bogus" none).map
        (fun g => (g.request.url, lookup g.request.payload "type"))
      = .ok ("http://librenms.example/api/v0/devices", some (.str "bogus")) :=
  ⟨by decide, by decide, rfl, rfl⟩

/-- C6: `list_devices` fails validation with no network call whenever a
filter device type is combined with a query, or a searchable device type is
called without one. -/
theorem list_devices_query_validation (c : Librenms) (dt : String) (q : Option String) :
    (dt ∈ filterTypes → q ≠ none →
        c.list_devices dt q = .error (.exc s!"Device type {dt} cannot have a query string."))
    ∧ (dt ∈ searchTypes → q = none →
        c.list_devices dt q = .error (.exc s!"Device type {dt} needs a query string.")) := by
  constructor
  · intro h1 h2
    unfold Librenms.list_devices
    rw [if_pos ⟨h1, h2⟩]
  · intro h1 h2
    have hf : ¬ (dt ∈ filterTypes ∧ q ≠ none) := fun hc => hc.2 h2
    unfold Librenms.list_devices
    rw [if_neg hf, if_pos ⟨h1, h2⟩]

/-- Witness for C6 at the two concrete calls of the claim. -/
theorem list_devices_query_validation_witness :
    tc.list_devices "active" (some "x")
        = .error (.exc "Device type active cannot have a query string.")
    ∧ tc.list_devices "mac" none = .error (.exc "Device type mac needs a query string.") :=
  ⟨(list_devices_query_validation tc "active" (some "x")).1 (by decide) (fun h => nomatch h),
   (list_devices_query_validation tc "mac" none).2 (by decide) rfl⟩

/-- C1 (amended): `add_device` with device type snmpv2c fails before any
network call with a message naming community when that argument is absent;
when community is supplied the POST body carries hostname, community and
snmpver v2c, and every keyword argument outside the snmpv2c required and
optional lists other than one named snmpver is absent from the body (a
snmpver kwarg is dropped as well, but the method itself always binds
snmpver to v2c in the body).  The hypothesis that the kwargs mapping has no
hostname key reflects that Python rejects a duplicate binding of the named
parameter hostname before the method body runs. -/
theorem add_device_snmpv2c_required_and_projection (c : Librenms) (kwargs : Dict)
    (hh : "hostname" ∉ keys kwargs) :
    (lookup kwargs "community" = none →
        c.add_device "h1" "snmpv2c" kwargs
          = .error (.exc "Missing parameter community for device type snmpv2c."))
    ∧ (∀ comm, lookup kwargs "community" = some comm →
        ∃ req, c.add_device "h1" "snmpv2c" kwargs = .ok req
          ∧ req.verb = .post
          ∧ lookup req.payload "hostname" = some (.str "h1")
          ∧ lookup req.payload "community" = some comm
          ∧ lookup req.payload "snmpver" = some (.str "v2c")
          ∧ ∀ k, k ∈ keys kwargs → k ∉ (required_params "snmpv2c").getD []
              → k ∉ optional_params "snmpv2c" → k ≠ "snmpver"
              → lookup req.payload k = none) := by
  constructor
  · intro h
    unfold Librenms.add_device
    simp only [show required_params "snmpv2c" = some ["community"] from rfl,
      fillRequired_cons_none _ _ _ _ _ h]
    rfl
  · intro comm h
    have he : c.add_device "h1" "snmpv2c" kwargs
        = .ok (c._post "devices" (some (dictSet
            (fillOptional kwargs (dictSet [("hostname", .str "h1")] "community" comm)
              (optional_params "snmpv2c")) "snmpver" (.str "v2c")))) := by
      unfold Librenms.add_device
      simp only [show required_params "snmpv2c" = some ["community"] from rfl,
        fillRequired_cons_some _ _ _ _ _ _ h, fillRequired_nil]
      rfl
    refine ⟨_, he, rfl, ?_, ?_, ?_, ?_⟩
    · rw [show (c._post "devices" (some (dictSet
            (fillOptional kwargs (dictSet [("hostname", .str "h1")] "community" comm)
              (optional_params "snmpv2c")) "snmpver" (.str "v2c")))).payload
          = dictSet (fillOptional kwargs (dictSet [("hostname", .str "h1")] "community" comm)
              (optional_params "snmpv2c")) "snmpver" (.str "v2c") from rfl,
        lookup_dictSet_ne _ _ _ _ (by decide : "snmpver" ≠ "hostname"),
        lookup_fillOptional_not_mem _ _ _ _ (by decide : "hostname" ∉ optional_params "snmpv2c"),
        lookup_dictSet_ne _ _ _ _ (by decide : "community" ≠ "hostname")]
      rfl
    · rw [show (c._post "devices" (some (dictSet
            (fillOptional kwargs (dictSet [("hostname", .str "h1")] "community" comm)
              (optional_params "snmpv2c")) "snmpver" (.str "v2c")))).payload
          = dictSet (fillOptional kwargs (dictSet [("hostname", .str "h1")] "community" comm)
              (optional_params "snmpv2c")) "snmpver" (.str "v2c") from rfl,
        lookup_dictSet_ne _ _ _ _ (by decide : "snmpver" ≠ "community"),
        lookup_fillOptional_not_mem _ _ _ _ (by decide : "community" ∉ optional_params "snmpv2c"),
        lookup_dictSet_self]
    · exact lookup_dictSet_self _ _ _
    · intro k hk hkr hko hks
      have hkh : k ≠ "hostname" := fun heq => hh (heq ▸ hk)
      have hkc : k ≠ "community" := fun heq => hkr (by rw [heq]; decide)
      rw [show (c._post "devices" (some (dictSet
            (fillOptional kwargs (dictSet [("hostname", .str "h1")] "community" comm)
              (optional_params "snmpv2c")) "snmpver" (.str "v2c")))).payload
          = dictSet (fillOptional kwargs (dictSet [("hostname", .str "h1")] "community" comm)
              (optional_params "snmpv2c")) "snmpver" (.str "v2c") from rfl,
        lookup_dictSet_ne _ _ _ _ (Ne.symm hks),
        lookup_fillOptional_not_mem _ _ _ _ hko,
        lookup_dictSet_ne _ _ _ _ (Ne.symm hkc)]
      simp only [lookup, if_neg (Ne.symm hkh)]

/-- Witness for the amended C1: a missing community errors with the message
naming it, and a call with community public plus an unrecognized kwarg
builds the expected body with the extra kwarg dropped. -/
theorem add_device_snmpv2c_required_and_projection_witness :
    tc.add_device "h1" "snmpv2c" [("extra", .str "e")]
        = .error (.exc "Missing parameter community for device type snmpv2c.")
    ∧ ∃ req, tc.add_device "h1" "snmpv2c"
          [("community", .str "public"), ("extra", .str "e")] = .ok req
        ∧ req.verb = .post
        ∧ lookup req.payload "hostname" = some (.str "h1")
        ∧ lookup req.payload "community" = some (.str "public")
        ∧ lookup req.payload "snmpver" = some (.str "v2c")
        ∧ lookup req.payload "extra" = none := by
  constructor
  · exact (add_device_snmpv2c_required_and_projection tc [("extra", .str "e")] (by decide)).1 rfl
  · obtain ⟨req, h1, h2, h3, h4, h5, h6⟩ :=
      (add_device_snmpv2c_required_and_projection tc
        [("community", .str "public"), ("extra", .str "e")] (by decide)).2 (.str "public") rfl
    exact ⟨req, h1, h2, h3, h4, h5, h6 "extra" (by decide) (by decide) (by decide) (by decide)⟩

/-- C1 counterexample: snmpver lies outside both the snmpv2c required and
optional lists, yet after a call passing it as a keyword argument the body
still contains the key snmpver (bound to v2c by the method), so the claim
that every such keyword argument is absent from the body fails. -/
theorem add_device_snmpv2c_counterexample :
    ("snmpver" ∉ (required_params "snmpv2c").getD [])
    ∧ ("snmpver" ∉ optional_params "snmpv2c")
    ∧ (tc.add_device "h1" "snmpv2c"
          [("community", .str "public"), ("snmpver", .str "v2c")]).map (fun r => r.payload)
      = .ok [("hostname", .str "h1"), ("community", .str "public"), ("snmpver", .str "v2c")] :=
  ⟨by decide, by decide, rfl⟩

/-- C5: `add_devicegroup` with the static variant demands devices set and
rules unset, and with the dynamic variant demands the opposite, failing
validation before any network call otherwise; a valid static call submits a
body carrying the devices value and no rules key, and a valid dynamic call
the opposite. -/
theorem add_devicegroup_variant_exclusivity (c : Librenms) (gn gt : String)
    (desc rules devices : Value) :
    (gt = "static" → (devices = .vnone ∨ rules ≠ .vnone) →
        c.add_devicegroup gn gt desc rules devices
          = .error (.exc "Devices must be set, rules cannot be set for STATIC group type."))
    ∧ (gt = "static" → devices ≠ .vnone → rules = .vnone →
        ∃ req, c.add_devicegroup gn gt desc rules devices = .ok req
          ∧ req.verb = .post
          ∧ lookup req.payload "devices" = some devices
          ∧ lookup req.payload "rules" = none)
    ∧ (gt = "dynamic" → (rules = .vnone ∨ devices ≠ .vnone) →
        c.add_devicegroup gn gt desc rules devices
          = .error (.exc "rules must be set, Devices cannot be set for DYNAMCI group type."))
    ∧ (gt = "dynamic" → rules ≠ .vnone → devices = .vnone →
        ∃ req, c.add_devicegroup gn gt desc rules devices = .ok req
          ∧ req.verb = .post
          ∧ lookup req.payload "rules" = some rules
          ∧ lookup req.payload "devices" = none) := by
  refine ⟨fun hg hc => ?_, fun hg h1 h2 => ?_, fun hg hc => ?_, fun hg h1 h2 => ?_⟩
  · subst hg
    unfold Librenms.add_devicegroup
    rw [if_pos rfl, if_pos hc]
  · subst hg
    have hc : ¬ (devices = Value.vnone ∨ rules ≠ Value.vnone) := by
      rintro (h | h)
      exacts [h1 h, h h2]
    unfold Librenms.add_devicegroup
    rw [if_pos rfl, if_neg hc]
    refine ⟨_, rfl, rfl, ?_, ?_⟩
    · exact lookup_dictSet_self _ _ _
    · show lookup (dictSet [("name", Value.str gn), ("description", desc),
          ("type", Value.str "static")] "devices" devices) "rules" = none
      rw [lookup_dictSet_ne _ _ _ _ (by decide : "devices" ≠ "rules")]; rfl
  · subst hg
    unfold Librenms.add_devicegroup
    rw [if_neg (by decide : ¬ ("dynamic" = "static")), if_pos rfl, if_pos hc]
  · subst hg
    have hc : ¬ (rules = Value.vnone ∨ devices ≠ Value.vnone) := by
      rintro (h | h)
      exacts [h1 h, h h2]
    unfold Librenms.add_devicegroup
    rw [if_neg (by decide : ¬ ("dynamic" = "static")), if_pos rfl, if_neg hc]
    refine ⟨_, rfl, rfl, ?_, ?_⟩
    · exact lookup_dictSet_self _ _ _
    · show lookup (dictSet [("name", Value.str gn), ("description", desc),
          ("type", Value.str "dynamic")] "rules" rules) "devices" = none
      rw [lookup_dictSet_ne _ _ _ _ (by decide : "rules" ≠ "devices")]; rfl

/-- Witness for C5 at the concrete calls of the claim: the valid static
call submits devices with no rules key, and the same call with rules also
set fails validation. -/
theorem add_devicegroup_variant_exclusivity_witness :
    (∃ req, tc.add_devicegroup "g" "static" .vnone .vnone (.list ["d1"]) = .ok req
      ∧ req.verb = .post
      ∧ lookup req.payload "devices" = some (.list ["d1"])
      ∧ lookup req.payload "rules" = none)
    ∧ tc.add_devicegroup "g" "static" .vnone (.str "r") (.list ["d1"])
        = .error (.exc "Devices must be set, rules cannot be set for STATIC group type.") :=
  ⟨(add_devicegroup_variant_exclusivity tc "g" "static" .vnone .vnone (.list ["d1"])).2.1 rfl
      (fun h => nomatch h) rfl,
   (add_devicegroup_variant_exclusivity tc "g" "static" .vnone (.str "r") (.list ["d1"])).1 rfl
      (Or.inr (fun h => nomatch h))⟩

/-- C7 (amended): every validation failure of the four methods is raised
locally, before any request value is constructed; the failure messages of
`add_device`, `add_devicegroup` and `list_devices` name the violated rule
(the offending parameter, value or variant occurs verbatim in the message),
while the membership failure of `search_ports` carries only the fixed
generic message, which names nothing. -/
theorem validation_failures_local_and_described (c : Librenms)
    (field s hn dt gn gt : String) (kwargs : Dict) (q : Option String)
    (cols desc rules devices : Value) :
    (field ∉ ["ifAlias", "ifDescr", "ifName", "all"] →
        c.search_ports field s cols = .error (.exc "Error occurred!"))
    ∧ (∀ m, c.add_device hn dt kwargs = .error (.exc m) →
        (required_params dt = none ∧ m = s!"Unknown device type {dt}." ∧ mentions m dt)
        ∨ (∃ p reqList, required_params dt = some reqList ∧ p ∈ reqList
            ∧ lookup kwargs p = none
            ∧ m = s!"Missing parameter {p} for device type {dt}." ∧ mentions m p))
    ∧ (∀ m, c.add_devicegroup gn gt desc rules devices = .error (.exc m) →
        (gt = "static"
          ∧ m = "Devices must be set, rules cannot be set for STATIC group type."
          ∧ mentions m "STATIC")
        ∨ (gt = "dynamic"
          ∧ m = "rules must be set, Devices cannot be set for DYNAMCI group type."
          ∧ mentions m "rules")
        ∨ (gt ≠ "static" ∧ gt ≠ "dynamic" ∧ m = s!"Unknown group type {gt}" ∧ mentions m gt))
    ∧ (∀ m, c.list_devices dt q = .error (.exc m) →
        ((dt ∈ filterTypes ∧ q ≠ none
            ∧ m = s!"Device type {dt} cannot have a query string.")
          ∨ (dt ∈ searchTypes ∧ q = none ∧ m = s!"Device type {dt} needs a query string."))
        ∧ mentions m dt) := by
  refine ⟨fun h => ?_, fun m hm => ?_, fun m hm => ?_, fun m hm => ?_⟩
  · unfold Librenms.search_ports
    rw [if_pos h]
  · cases hr : required_params dt with
    | none =>
        left
        unfold Librenms.add_device at hm
        simp only [hr] at hm
        injection hm with h1
        injection h1 with h2
        refine ⟨rfl, h2.symm, ?_⟩
        rw [h2.symm]
        exact mentions_append_l _ _ _ (mentions_append_r _ _ _ (mentions_refl dt))
    | some reqList =>
        right
        unfold Librenms.add_device at hm
        simp only [hr] at hm
        cases hf : fillRequired dt kwargs [("hostname", Value.str hn)] reqList with
        | error e =>
            rw [hf] at hm
            injection hm with h1
            obtain ⟨p, hp, hl, he⟩ := fillRequired_error_mem _ _ _ _ _ hf
            have hme : m = s!"Missing parameter {p} for device type {dt}." := by
              have h2 := h1.symm.trans he
              injection h2
            refine ⟨p, reqList, rfl, hp, hl, hme, ?_⟩
            rw [hme]
            exact mentions_append_l _ _ _ (mentions_append_l _ _ _
              (mentions_append_l _ _ _ (mentions_append_r _ _ _ (mentions_refl p))))
        | ok d =>
            rw [hf] at hm
            simp at hm
  · by_cases hst : gt = "static"
    · subst hst
      left
      unfold Librenms.add_devicegroup at hm
      rw [if_pos rfl] at hm
      by_cases hcond : devices = Value.vnone ∨ rules ≠ Value.vnone
      · rw [if_pos hcond] at hm
        injection hm with h1
        injection h1 with h2
        exact ⟨rfl, h2.symm, by rw [h2.symm]; decide⟩
      · rw [if_neg hcond] at hm
        simp at hm
    · by_cases hdy : gt = "dynamic"
      · subst hdy
        right; left
        unfold Librenms.add_devicegroup at hm
        rw [if_neg (by decide : ¬ ("dynamic" = "static")), if_pos rfl] at hm
        by_cases hcond : rules = Value.vnone ∨ devices ≠ Value.vnone
        · rw [if_pos hcond] at hm
          injection hm with h1
          injection h1 with h2
          exact ⟨rfl, h2.symm, by rw [h2.symm]; decide⟩
        · rw [if_neg hcond] at hm
          simp at hm
      · right; right
        unfold Librenms.add_devicegroup at hm
        rw [if_neg hst, if_neg hdy] at hm
        injection hm with h1
        injection h1 with h2
        refine ⟨hst, hdy, h2.symm, ?_⟩
        rw [h2.symm]
        exact mentions_append_l _ _ _ (mentions_append_r _ _ _ (mentions_refl gt))
  · by_cases h1 : dt ∈ filterTypes ∧ q ≠ none
    · unfold Librenms.list_devices at hm
      rw [if_pos h1] at hm
      injection hm with ha
      injection ha with hb
      refine ⟨Or.inl ⟨h1.1, h1.2, hb.symm⟩, ?_⟩
      rw [hb.symm]
      exact mentions_append_l _ _ _ (mentions_append_r _ _ _ (mentions_refl dt))
    · by_cases h2 : dt ∈ searchTypes ∧ q = none
      · unfold Librenms.list_devices at hm
        rw [if_neg h1, if_pos h2] at hm
        injection hm with ha
        injection ha with hb
        refine ⟨Or.inr ⟨h2.1, h2.2, hb.symm⟩, ?_⟩
        rw [hb.symm]
        exact mentions_append_l _ _ _ (mentions_append_r _ _ _ (mentions_refl dt))
      · unfold Librenms.list_devices at hm
        rw [if_neg h1, if_neg h2] at hm
        simp at hm

/-- Witness for the amended C7: the generic search_ports failure at a
concrete invalid field, and a concrete list_devices failure message shown
to mention the offending device type. -/
theorem validation_failures_local_and_described_witness :
    tc.search_ports "bogus" "s" .vnone = .error (.exc "Error occurred!")
    ∧ mentions "Device type active cannot have a query string." "active" := by
  constructor
  · exact (validation_failures_local_and_described tc "bogus" "s" "h" "x" "g" "static" [] none
      .vnone .vnone .vnone .vnone).1 (by decide)
  · exact ((validation_failures_local_and_described tc "f" "s" "h" "active" "g" "static" []
      (some "x") .vnone .vnone .vnone .vnone).2.2.2
        "Device type active cannot have a query string." rfl).2

/-- C7 counterexample: the membership failure of search_ports carries the
same fixed message for two different invalid fields, and that message
mentions neither the offending value nor the checked parameter, so it does
not name the violated rule. -/
theorem search_ports_generic_message_counterexample :
    tc.search_ports "bogus" "s" .vnone = .error (.exc "Error occurred!")
    ∧ tc.search_ports "nonsense" "s" .vnone = .error (.exc "Error occurred!")
    ∧ ¬ mentions "Error occurred!" "bogus"
    ∧ ¬ mentions "Error occurred!" "field" :=
  ⟨rfl, rfl, by decide, by decide⟩

/-- C10: `add_location` binds lat (respectively lng) to the literal string
None whenever the latitude (respectively longitude) argument is falsy,
including the None default and the number zero, instead of omitting the
key; a truthy latitude passes through; and fixed_coordinates is passed
through unchanged, so a None there stays None. -/
theorem add_location_falsy_coordinates (c : Librenms) (name : String)
    (lat lng fc : Value) :
    (lat.truthy = false →
        lookup (c.add_location name lat lng fc).payload "lat" = some (.str "None"))
    ∧ (lng.truthy = false →
        lookup (c.add_location name lat lng fc).payload "lng" = some (.str "None"))
    ∧ (lat.truthy = true →
        lookup (c.add_location name lat lng fc).payload "lat" = some lat)
    ∧ lookup (c.add_location name lat lng fc).payload "fixed_coordinates" = some fc := by
  refine ⟨fun h => ?_, fun h => ?_, fun h => ?_, ?_⟩
  · simp [Librenms.add_location, Librenms._post, lookup, h]
  · simp [Librenms.add_location, Librenms._post, lookup, h]
  · simp [Librenms.add_location, Librenms._post, lookup, h]
  · simp [Librenms.add_location, Librenms._post, lookup]

/-- Witness for C10 at latitude zero and longitude None: both become the
string None, while fixed_coordinates passes through, including a None. -/
theorem add_location_falsy_coordinates_witness :
    lookup (tc.add_location "loc" (.int 0) .vnone (.int 1)).payload "lat" = some (.str "None")
    ∧ lookup (tc.add_location "loc" (.int 0) .vnone (.int 1)).payload "lng" = some (.str "None")
    ∧ lookup (tc.add_location "loc" (.int 0) .vnone (.int 1)).payload "fixed_coordinates"
        = some (.int 1)
    ∧ lookup (tc.add_location "loc2" .vnone .vnone .vnone).payload "fixed_coordinates"
        = some .vnone :=
  ⟨(add_location_falsy_coordinates tc "loc" (.int 0) .vnone (.int 1)).1 (by decide),
   (add_location_falsy_coordinates tc "loc" (.int 0) .vnone (.int 1)).2.1 rfl,
   (add_location_falsy_coordinates tc "loc" (.int 0) .vnone (.int 1)).2.2.2,
   (add_location_falsy_coordinates tc "loc2" .vnone .vnone .vnone).2.2.2⟩

end PyLibreNMS
